import Mathlib

/-!
Verification of the card-generation workflow of the "English Flash Cards
Generator" repository: a shallow embedding of the generation-session state
machine, the asynchronous pipeline, the quota gate, the status-check route
and the card-approval operation, translated from
`docs/implementation-guide-api-generation.md` (the executable TypeScript of
`src/lib/openai.ts`, `app/api/cards/generate/route.ts`,
`app/api/cards/generation/[sessionId]/route.ts`) and the
`CardRepository.approveCard` method of the architecture components document.

External effects (the OpenAI calls, the store's insert/update fallibility)
are modelled as explicit oracle parameters; the durable store is a record of
row lists, with supabase-style `update ... eq` rendered as a map over rows.
JavaScript quirks that the code relies on are modelled explicitly: the
`count >= undefined` comparison is `false` (`jsGeNat`), the tier fallback
treats the empty string as falsy, and `!imageUrl` treats the empty string as
missing.
-/

namespace FlashCards

/-- Card type, the zod enum of single-word and category cards. -/
inductive CardType where
  | single_word
  | category
deriving Repr, DecidableEq

/-- Field `difficulty_level` of `GenerateCardSchema.generation_params`. -/
inductive DifficultyLevel where
  | beginner
  | intermediate
  | advanced
deriving Repr, DecidableEq

/-- Field `age_group` of `GenerateCardSchema.generation_params`. -/
inductive AgeGroup where
  | preschool
  | elementary
  | middle_school
deriving Repr, DecidableEq

/-- Field `style_preference` of `GenerateCardSchema.generation_params`. -/
inductive StylePreference where
  | cartoon
  | realistic
  | minimalist
deriving Repr, DecidableEq

/-- The `generation_params` object as validated by `GenerateCardSchema`. -/
structure GenerationParams where
  difficulty_level : DifficultyLevel
  age_group : AgeGroup
  style_preference : StylePreference
  language : String
deriving Repr, DecidableEq

/-- Status of `generation_sessions`: `pending | processing | completed | failed`. -/
inductive SessionStatus where
  | pending
  | processing
  | completed
  | failed
deriving Repr, DecidableEq

/-- Status of `flash_cards`: `generating | preview | approved | downloaded`. -/
inductive CardStatus where
  | generating
  | preview
  | approved
  | downloaded
deriving Repr, DecidableEq

/-- The cost record returned by `OpenAIService.calculateCosts` and stored in
`generation_sessions.ai_costs`. `total_cost_usd` is modelled as a rational;
the JavaScript `Number(x.toFixed(4))` float rounding is rendered as exact
decimal rounding to four places. -/
structure AiCosts where
  text_tokens : Nat
  image_generations : Nat
  total_cost_usd : ℚ
deriving Repr, DecidableEq

/-- A scene as produced by `OpenAIService.generateSceneImages` (the `Scene`
type of `@/types/cards`). `image_url` is the empty string when the image
call for the scene failed. -/
structure Scene where
  id : String
  description : String
  image_url : String
  image_prompt : String
deriving Repr, DecidableEq

/-- The constant `layout` object of `generateCardContent`. -/
structure CardLayout where
  format : String
  orientation : String
  theme : String
deriving Repr, DecidableEq

/-- The `content` of a flash card as assembled by `generateCardContent`. -/
structure CardContent where
  primary_word : String
  scenes : List Scene
  category_words : Option (List String)
  layout : CardLayout
deriving Repr, DecidableEq

/-- A row of `generation_sessions`. Timestamps are abstract instants
(`created_at` at calendar-day granularity, matching the quota query's
day-range filter). -/
structure Session where
  id : Nat
  user_id : Nat
  input_prompt : String
  card_type : CardType
  status : SessionStatus
  error_message : Option String
  retry_count : Nat
  ai_costs : Option AiCosts
  created_at : Nat
  completed_at : Option Nat
deriving Repr, DecidableEq

/-- A row of `flash_cards`. -/
structure FlashCard where
  id : Nat
  user_id : Nat
  session_id : Nat
  title : String
  card_type : CardType
  content : CardContent
  generation_params : GenerationParams
  status : CardStatus
deriving Repr, DecidableEq

/-- A row of the normalized `card_scenes` table. -/
structure CardSceneRow where
  card_id : Nat
  scene_order : Nat
  description : String
  image_url : String
  image_prompt : String
deriving Repr, DecidableEq

/-- A row of `users`, reduced to the field the quota gate reads. -/
structure UserRow where
  id : Nat
  subscription_tier : String
deriving Repr, DecidableEq

/-- The durable keyed store (supabase tables) the routes read and write. -/
structure Store where
  users : List UserRow
  sessions : List Session
  cards : List FlashCard
  card_scenes : List CardSceneRow
deriving Repr, DecidableEq

/-- A scene description coming out of the text-generation step
(`generateTextContent`'s parsed JSON `scenes` entries). -/
structure SceneInput where
  id : String
  description : String
  image_prompt : String
deriving Repr, DecidableEq

/-- The parsed result of `generateTextContent`: the model's JSON plus the
completion's token usage (`usage?.total_tokens`). -/
structure TextContent where
  title : String
  primary_word : String
  category_words : Option (List String)
  scenes : List SceneInput
  usage_total_tokens : Option Nat
deriving Repr, DecidableEq

/-- One entry of `moderation.results`: the `flagged` bit and the
`categories` record (category name paired with its flag). -/
structure ModerationOutput where
  flagged : Bool
  categories : List (String × Bool)
deriving Repr, DecidableEq

/-- Oracle for the pipeline's external effects: the outcome of the
text-generation call (`Except.error` covers adapter errors, missing content
and JSON-parse failure, carrying the thrown message), the outcome of the
moderation call (`Except.error` is an infrastructure failure of the call
itself, `Except.ok` its results array), the outcome of the image call for
the scene at each position (`Except.error` a thrown call, `.ok none` a
response with no url), and the fallibility of the card / scene inserts. -/
structure PipelineEnv where
  textResult : Except String TextContent
  moderation : Except String (List ModerationOutput)
  imageCall : Nat → Except String (Option String)
  cardInsertError : Option String
  scenesInsertError : Bool

/-- Method `OpenAIService.moderateContent`: throws
`Content policy violation: <flagged categories joined by ", ">` when
`results[0]?.flagged`; passes otherwise. The input string is what the call
submits (the concatenated scene descriptions); the verdict comes from the
oracle. -/
def moderateContent (modCall : Except String (List ModerationOutput))
    (input : String) : Except String Unit :=
  match modCall with
  | .error e => .error e
  | .ok results =>
    let flagged := ((results.head?).map ModerationOutput.flagged).getD false
    if flagged then
      let categories := ((results.head?).map ModerationOutput.categories).getD []
      let flaggedCategories := (categories.filter (fun p => p.2)).map (fun p => p.1)
      .error ("Content policy violation: " ++ String.intercalate ", " flaggedCategories)
    else
      let _ := input
      .ok ()

/-- One iteration of `generateSceneImages`'s loop body: on a successful call
with a non-empty url, attach it; on a thrown call, a missing url or an empty
url (`!imageUrl`), push the scene with `image_url := ""`. -/
def sceneImageResult (call : Except String (Option String)) (scene : SceneInput) : Scene :=
  match call with
  | .ok (some url) =>
    if url == "" then
      { id := scene.id, description := scene.description, image_url := "",
        image_prompt := scene.image_prompt }
    else
      { id := scene.id, description := scene.description, image_url := url,
        image_prompt := scene.image_prompt }
  | .ok none =>
    { id := scene.id, description := scene.description, image_url := "",
      image_prompt := scene.image_prompt }
  | .error _ =>
    { id := scene.id, description := scene.description, image_url := "",
      image_prompt := scene.image_prompt }

/-- Method `OpenAIService.generateSceneImages`: the sequential loop over the scenes,
`k` the position of the head scene (the loop starts at `0`). Every scene is
processed; a per-scene failure is absorbed into an empty `image_url`. -/
def generateSceneImages (imageCall : Nat → Except String (Option String)) :
    List SceneInput → Nat → List Scene
  | [], _ => []
  | scene :: rest, k =>
    sceneImageResult (imageCall k) scene :: generateSceneImages imageCall rest (k + 1)

/-- Exact-decimal rendering of `Number(x.toFixed(4))`. -/
def jsToFixed4 (x : ℚ) : ℚ := (round (x * 10000) : ℤ) / 10000

/-- Method `OpenAIService.calculateCosts`: GPT-4 token cost (half the tokens at the
input rate, half at the output rate) plus DALL-E cost per generated image. -/
def calculateCosts (textTokens imageGenerations : Nat) : AiCosts :=
  let gpt4InputCost : ℚ := 3 / 100 / 1000
  let gpt4OutputCost : ℚ := 6 / 100 / 1000
  let dalleE3Cost : ℚ := 4 / 100
  let textCost := ((textTokens : ℚ) / 2) * gpt4InputCost + ((textTokens : ℚ) / 2) * gpt4OutputCost
  let imageCost := (imageGenerations : ℚ) * dalleE3Cost
  { text_tokens := textTokens
    image_generations := imageGenerations
    total_cost_usd := jsToFixed4 (textCost + imageCost) }

/-- The constant `layout` attached to every generated card. -/
def defaultLayout : CardLayout :=
  { format := "3:4", orientation := "portrait", theme := "colorful" }

/-- The value returned by `OpenAIService.generateCardContent`. -/
structure GenOutput where
  title : String
  content : CardContent
  costs : AiCosts
deriving Repr, DecidableEq

/-- Method `OpenAIService.generateCardContent`: text generation, then moderation of
the concatenated scene descriptions, then per-scene image generation, then
cost calculation with `imageGenerations = scenes.length`. The surrounding
try/catch rethrows the failing step's message unchanged. -/
def generateCardContent (env : PipelineEnv) (prompt : String) (cardType : CardType)
    (params : GenerationParams) : Except String GenOutput :=
  let _ := prompt
  let _ := cardType
  let _ := params
  match env.textResult with
  | .error e => .error e
  | .ok textContent =>
    let textTokens := textContent.usage_total_tokens.getD 0
    match moderateContent env.moderation
        (String.intercalate " " (textContent.scenes.map SceneInput.description)) with
    | .error e => .error e
    | .ok _ =>
      let scenes := generateSceneImages env.imageCall textContent.scenes 0
      let imageGenerations := scenes.length
      let costs := calculateCosts textTokens imageGenerations
      .ok { title := textContent.title
            content := { primary_word := textContent.primary_word
                         scenes := scenes
                         category_words := textContent.category_words
                         layout := defaultLayout }
            costs := costs }

/-- A supabase update-by-id on `generation_sessions`. -/
def updateSession (store : Store) (sid : Nat) (f : Session → Session) : Store :=
  { store with sessions := store.sessions.map (fun s => if s.id == sid then f s else s) }

/-- The failure update of `generateCardAsync`'s catch block: status
`failed`, the error message, and `completed_at` set. -/
def failSession (store : Store) (sid : Nat) (msg : String) (now : Nat) : Store :=
  updateSession store sid (fun s =>
    { s with status := SessionStatus.failed, error_message := some msg,
             completed_at := some now })

/-- The validated body of a `POST /api/cards/generate` request. -/
structure GenerateRequest where
  input_prompt : String
  card_type : CardType
  generation_params : GenerationParams
deriving Repr, DecidableEq

/-- The rows `generateCardAsync` inserts into `card_scenes`
(`scene_order` is the scene's index plus one). -/
def scenesRows (cardId : Nat) : List Scene → Nat → List CardSceneRow
  | [], _ => []
  | scene :: rest, i =>
    { card_id := cardId, scene_order := i + 1, description := scene.description,
      image_url := scene.image_url, image_prompt := scene.image_prompt }
      :: scenesRows cardId rest (i + 1)

/-- The `flash_cards` row `generateCardAsync` inserts on success
(status `preview`). -/
def producedCard (cc : GenOutput) (req : GenerateRequest)
    (userId sessionId newCardId : Nat) : FlashCard :=
  { id := newCardId, user_id := userId, session_id := sessionId,
    title := cc.title, card_type := req.card_type, content := cc.content,
    generation_params := req.generation_params, status := CardStatus.preview }

/-- The function `generateCardAsync`, the detached background pipeline: set the session
to `processing`; run `generateCardContent`; on success insert the card
(status `preview`), insert the scene rows (an insert error there is
swallowed), and mark the session `completed` with `ai_costs` and
`completed_at`; any thrown error is caught and recorded by `failSession`.
`updateUserUsage` touches only the usage-tracking table and swallows its
errors, so it is not represented in the store. `now` is the instant the
terminal update takes; `newCardId` the id the card insert assigns. -/
def generateCardAsync (env : PipelineEnv) (store : Store) (sessionId : Nat)
    (req : GenerateRequest) (userId : Nat) (newCardId : Nat) (now : Nat) : Store :=
  let store1 := updateSession store sessionId
    (fun s => { s with status := SessionStatus.processing })
  match generateCardContent env req.input_prompt req.card_type req.generation_params with
  | .error e => failSession store1 sessionId e now
  | .ok cc =>
    match env.cardInsertError with
    | some msg => failSession store1 sessionId ("Failed to save card: " ++ msg) now
    | none =>
      let store2 :=
        { store1 with cards := store1.cards ++ [producedCard cc req userId sessionId newCardId] }
      let store3 :=
        if 0 < cc.content.scenes.length && !env.scenesInsertError then
          { store2 with
            card_scenes := store2.card_scenes ++ scenesRows newCardId cc.content.scenes 0 }
        else store2
      updateSession store3 sessionId (fun s =>
        { s with status := SessionStatus.completed, ai_costs := some cc.costs,
                 completed_at := some now })

/-- The `quotaLimits` table of `checkUserQuota`. -/
def quotaLimits : List (String × Nat) :=
  [("free", 5), ("educator", 50), ("premium", 200)]

/-- Lookup `quotaLimits[tier]`: `none` models the JavaScript `undefined` for a tier
that is not a key of the table. -/
def lookupLimit (tier : String) : Option Nat :=
  ((quotaLimits.find? (fun p => p.1 == tier)).map (fun p => p.2))

/-- The JavaScript comparison `todayCount >= dailyLimit` where `dailyLimit`
may be `undefined`: a relational comparison with `undefined` is `false`. -/
def jsGeNat (n : Nat) (limit : Option Nat) : Bool :=
  match limit with
  | none => false
  | some l => decide (l ≤ n)

/-- The value of `checkUserQuota`. -/
structure QuotaCheck where
  allowed : Bool
  message : Option String
deriving Repr, DecidableEq

/-- The function `checkUserQuota`: read the user tier (`user?.subscription_tier`
with fallback, so a missing row, a null tier or an empty string all fall back to
`"free"`), look up the daily limit, count today's sessions, and reject when
`todayCount >= dailyLimit`. Both reads are inside the try block: a rejected
promise in either (`Except.error`) lands in the catch, which returns
`allowed := true` — the gate fails open. -/
def checkUserQuota (tierResult : Except Unit (Option String))
    (countResult : Except Unit (Option Nat)) : QuotaCheck :=
  match tierResult with
  | .error _ => { allowed := true, message := none }
  | .ok userTier =>
    let tier := match userTier with
      | none => "free"
      | some s => if s == "" then "free" else s
    let dailyLimit := lookupLimit tier
    match countResult with
    | .error _ => { allowed := true, message := none }
    | .ok cnt =>
      let todayCount := cnt.getD 0
      if jsGeNat todayCount dailyLimit then
        { allowed := false
          message := some ("Daily limit of " ++
            ((dailyLimit.map toString).getD "undefined") ++
            " cards reached. Upgrade to generate more cards.") }
      else
        { allowed := true, message := none }

/-- The count query of `checkUserQuota`: sessions of this user whose
`created_at` falls in today's range. -/
def countSessionsToday (store : Store) (userId : Nat) (today : Nat) : Nat :=
  (store.sessions.filter (fun s => s.user_id == userId && s.created_at == today)).length

/-- The tier query of `checkUserQuota` against the store. -/
def lookupTier (store : Store) (userId : Nat) : Option String :=
  ((store.users.find? (fun u => u.id == userId)).map UserRow.subscription_tier)

/-- Oracle for the route-level effects of `POST /api/cards/generate`:
whether the quota gate's two reads reject their promises, and whether the
session insert fails. -/
structure RouteEnv where
  userLookupFails : Bool
  countLookupFails : Bool
  sessionInsertError : Bool
  pipeline : PipelineEnv

/-- Outcome of `POST /api/cards/generate` before the background pipeline:
`quotaExceeded` is the thrown `QuotaExceededError` (HTTP 429, code
`QUOTA_EXCEEDED`; its default message applies when the check carries none),
`sessionCreateFailed` the thrown insert failure, `ok` the persisted store
with the created session. -/
inductive GenerateResult where
  | quotaExceeded (message : String)
  | sessionCreateFailed
  | ok (store : Store) (session : Session)
deriving Repr, DecidableEq

/-- The `generation_sessions` row the route inserts: status `pending`, and
the table defaults `retry_count = 0`, `completed_at = NULL`. -/
def newPendingSession (userId : Nat) (req : GenerateRequest)
    (today newSessionId : Nat) : Session :=
  { id := newSessionId, user_id := userId, input_prompt := req.input_prompt,
    card_type := req.card_type, status := SessionStatus.pending,
    error_message := none, retry_count := 0, ai_costs := none,
    created_at := today, completed_at := none }

/-- The route's `const quotaCheck = await checkUserQuota(supabase, user.id)`:
the gate's two store reads either reject (per the route oracle) or return
what the store holds. -/
def routeQuotaCheck (renv : RouteEnv) (store : Store) (userId today : Nat) : QuotaCheck :=
  checkUserQuota
    (if renv.userLookupFails then Except.error () else Except.ok (lookupTier store userId))
    (if renv.countLookupFails then Except.error ()
     else Except.ok (some (countSessionsToday store userId today)))

/-- The synchronous part of `POST /api/cards/generate`: run the quota gate;
if disallowed throw `QuotaExceededError` with no session persisted;
otherwise insert a new session with status `pending` (and the table defaults
`retry_count = 0`, `completed_at = NULL`) and return it. -/
def postGenerate (renv : RouteEnv) (store : Store) (userId : Nat)
    (req : GenerateRequest) (today : Nat) (newSessionId : Nat) : GenerateResult :=
  if (routeQuotaCheck renv store userId today).allowed then
    if renv.sessionInsertError then
      GenerateResult.sessionCreateFailed
    else
      GenerateResult.ok
        { store with
          sessions := store.sessions ++ [newPendingSession userId req today newSessionId] }
        (newPendingSession userId req today newSessionId)
  else
    GenerateResult.quotaExceeded
      ((routeQuotaCheck renv store userId today).message.getD "Generation quota exceeded")

/-- The whole `generate` call: the synchronous route followed by the
scheduled background pipeline (when a session was created). The session in
the `ok` result is the pending session the route returned to the client;
the store is the state after the pipeline has run. The route's outer
`.catch` re-writes the same failed status the pipeline's own catch already
recorded, so it adds nothing to the final store. -/
def generateRun (renv : RouteEnv) (store : Store) (userId : Nat)
    (req : GenerateRequest) (today now newSessionId newCardId : Nat) : GenerateResult :=
  match postGenerate renv store userId req today newSessionId with
  | GenerateResult.ok store1 session =>
    GenerateResult.ok
      (generateCardAsync renv.pipeline store1 session.id req userId newCardId now)
      session
  | r => r

/-- Outcome of `GET /api/cards/generation/[sessionId]`. -/
inductive SessionLookup where
  | notFound
  | found (session : Session) (cards : List FlashCard)
deriving Repr, DecidableEq

/-- Route `GET /api/cards/generation/[sessionId]`: select the session by id
**and** by owning user; any other user's request sees the 404 branch
(`NOT_FOUND`), never the row. On a hit the nested `flash_cards` of the
session come along. -/
def getSessionRoute (store : Store) (sessionId : Nat) (userId : Nat) : SessionLookup :=
  match store.sessions.find? (fun s => s.id == sessionId && s.user_id == userId) with
  | none => SessionLookup.notFound
  | some s =>
    SessionLookup.found s (store.cards.filter (fun c => c.session_id == sessionId))

/-- Method `CardRepository.approveCard`: an unconditional status update on the row
matching `id` and `user_id`, returning the updated row; `.single()` errors
when no row matches. The update is unconditional on the card's current
status. -/
def approveCard (store : Store) (cardId : Nat) (userId : Nat) :
    Except String (Store × FlashCard) :=
  match store.cards.find? (fun c => c.id == cardId && c.user_id == userId) with
  | none => .error "Failed to approve card: no rows returned"
  | some c =>
    .ok ({ store with cards := store.cards.map (fun d =>
             if d.id == cardId && d.user_id == userId then
               { d with status := CardStatus.approved }
             else d) },
         { c with status := CardStatus.approved })

/-- The §8 invariant check: `completed_at` is set iff the status is
terminal. -/
def completedAtIffTerminal (s : Session) : Bool :=
  s.completed_at.isSome ==
    (s.status == SessionStatus.completed || s.status == SessionStatus.failed)

/-- Whether an image-call outcome is a failure in the sense of
`generateSceneImages`'s catch (thrown call, missing url, or empty url). -/
def callFailed (r : Except String (Option String)) : Bool :=
  match r with
  | .ok (some url) => url == ""
  | .ok none => true
  | .error _ => true

/-- The net effect of the background pipeline on the row of its session: the
`processing` step followed by the terminal update of whichever branch the
pipeline takes. -/
def pipelineFinal (env : PipelineEnv) (req : GenerateRequest) (now : Nat)
    (s : Session) : Session :=
  match generateCardContent env req.input_prompt req.card_type req.generation_params with
  | .error e =>
    { s with status := SessionStatus.failed, error_message := some e,
             completed_at := some now }
  | .ok cc =>
    match env.cardInsertError with
    | some msg =>
      { s with status := SessionStatus.failed,
               error_message := some ("Failed to save card: " ++ msg),
               completed_at := some now }
    | none =>
      { s with status := SessionStatus.completed, ai_costs := some cc.costs,
               completed_at := some now }

theorem updateSession_sessions (store : Store) (sid : Nat) (f : Session → Session) :
    (updateSession store sid f).sessions =
      store.sessions.map (fun s => if s.id == sid then f s else s) := rfl

theorem generateCardAsync_sessions (env : PipelineEnv) (store : Store) (sid : Nat)
    (req : GenerateRequest) (userId ncid now : Nat) :
    (generateCardAsync env store sid req userId ncid now).sessions =
      store.sessions.map (fun s => if s.id == sid then pipelineFinal env req now s else s) := by
  unfold generateCardAsync pipelineFinal
  cases hg : generateCardContent env req.input_prompt req.card_type req.generation_params with
  | error e =>
    simp only [failSession, updateSession_sessions, List.map_map]
    congr 1
    funext s
    by_cases h : s.id == sid <;> simp [Function.comp, h]
  | ok cc =>
    cases hc : env.cardInsertError with
    | some msg =>
      simp only [failSession, updateSession_sessions, List.map_map]
      congr 1
      funext s
      by_cases h : s.id == sid <;> simp [Function.comp, h]
    | none =>
      simp only [updateSession_sessions, apply_ite Store.sessions, ite_self,
        List.map_map]
      congr 1
      funext s
      by_cases h : s.id == sid <;> simp [Function.comp, h]

theorem pipelineFinal_terminal (env : PipelineEnv) (req : GenerateRequest)
    (now : Nat) (s : Session) :
    completedAtIffTerminal (pipelineFinal env req now s) = true := by
  unfold pipelineFinal
  cases generateCardContent env req.input_prompt req.card_type req.generation_params with
  | error e => simp [completedAtIffTerminal]
  | ok cc =>
    cases env.cardInsertError with
    | some msg => simp [completedAtIffTerminal]
    | none => simp [completedAtIffTerminal]

theorem pipelineFinal_retry_count (env : PipelineEnv) (req : GenerateRequest)
    (now : Nat) (s : Session) :
    (pipelineFinal env req now s).retry_count = s.retry_count := by
  unfold pipelineFinal
  cases generateCardContent env req.input_prompt req.card_type req.generation_params with
  | error e => rfl
  | ok cc =>
    cases env.cardInsertError with
    | some msg => rfl
    | none => rfl

theorem postGenerate_ok_inv (renv : RouteEnv) (store : Store) (userId : Nat)
    (req : GenerateRequest) (today nsid : Nat) (store0 : Store) (sess0 : Session)
    (h : postGenerate renv store userId req today nsid =
      GenerateResult.ok store0 sess0) :
    sess0 = newPendingSession userId req today nsid ∧
    store0 =
      { store with sessions := store.sessions ++ [newPendingSession userId req today nsid] } := by
  unfold postGenerate at h
  split at h
  · split at h
    · exact absurd h (by simp)
    · rw [GenerateResult.ok.injEq] at h
      exact ⟨h.2.symm, h.1.symm⟩
  · exact absurd h (by simp)

theorem generateRun_ok_inv (renv : RouteEnv) (store : Store) (userId : Nat)
    (req : GenerateRequest) (today now nsid ncid : Nat) (store1 : Store)
    (sess : Session)
    (hrun : generateRun renv store userId req today now nsid ncid =
      GenerateResult.ok store1 sess) :
    sess = newPendingSession userId req today nsid ∧
    store1 = generateCardAsync renv.pipeline
      { store with sessions := store.sessions ++ [newPendingSession userId req today nsid] }
      nsid req userId ncid now := by
  unfold generateRun at hrun
  cases hpost : postGenerate renv store userId req today nsid with
  | quotaExceeded m => rw [hpost] at hrun; exact absurd hrun (by simp)
  | sessionCreateFailed => rw [hpost] at hrun; exact absurd hrun (by simp)
  | ok store0 sess0 =>
    rw [hpost] at hrun
    obtain ⟨hs0, hst0⟩ := postGenerate_ok_inv renv store userId req today nsid store0 sess0 hpost
    rw [GenerateResult.ok.injEq] at hrun
    subst hs0 hst0
    refine ⟨hrun.2.symm, ?_⟩
    rw [← hrun.1]
    rfl

/-- Concrete fixtures used by the witness and counterexample theorems. -/
def exampleParams : GenerationParams :=
  { difficulty_level := DifficultyLevel.beginner, age_group := AgeGroup.elementary,
    style_preference := StylePreference.cartoon, language := "en" }

def exampleReq : GenerateRequest :=
  { input_prompt := "elephant", card_type := CardType.single_word,
    generation_params := exampleParams }

def exampleScenes : List SceneInput :=
  [ { id := "scene_1", description := "d1", image_prompt := "p1" },
    { id := "scene_2", description := "d2", image_prompt := "p2" },
    { id := "scene_3", description := "d3", image_prompt := "p3" },
    { id := "scene_4", description := "d4", image_prompt := "p4" } ]

def exampleText : TextContent :=
  { title := "Elephant", primary_word := "elephant", category_words := none,
    scenes := exampleScenes, usage_total_tokens := some 1000 }

/-- Image oracle for the Scenario-D runs: the call for the fourth scene
(position 3) throws, the others return a url. -/
def exampleImageCall : Nat → Except String (Option String) :=
  fun i => if i == 3 then Except.error "img fail" else Except.ok (some "http://img")

def examplePipelineOk : PipelineEnv :=
  { textResult := Except.ok exampleText,
    moderation := Except.ok [{ flagged := false, categories := [] }],
    imageCall := exampleImageCall, cardInsertError := none,
    scenesInsertError := false }

def exampleStore : Store :=
  { users := [{ id := 1, subscription_tier := "free" }],
    sessions := [], cards := [], card_scenes := [] }

def exampleRoute : RouteEnv :=
  { userLookupFails := false, countLookupFails := false,
    sessionInsertError := false, pipeline := examplePipelineOk }

/-- The store after the Scenario-D run (extracted from the run result). -/
def exampleRunStore : Store :=
  match generateRun exampleRoute exampleStore 1 exampleReq 0 5 10 20 with
  | GenerateResult.ok st _ => st
  | _ => exampleStore

/-- C1: for every generation session, `completed_at` is set if and only if
the status is terminal: the route creates the session `pending` without
`completed_at`, the `processing` update does not touch it, and both the
`completed` update and every `failed` update set it. Stated as preservation
of the invariant across a whole `generate` run (route plus background
pipeline), for a fresh session id. -/
theorem c1_completed_at_iff_terminal
    (renv : RouteEnv) (store : Store) (userId : Nat) (req : GenerateRequest)
    (today now nsid ncid : Nat) (store1 : Store) (sess : Session)
    (hinv : ∀ s ∈ store.sessions, completedAtIffTerminal s = true)
    (hfresh : ∀ s ∈ store.sessions, s.id ≠ nsid)
    (hrun : generateRun renv store userId req today now nsid ncid =
      GenerateResult.ok store1 sess) :
    ∀ s ∈ store1.sessions, completedAtIffTerminal s = true := by
  obtain ⟨hs, hst⟩ :=
    generateRun_ok_inv renv store userId req today now nsid ncid store1 sess hrun
  subst hst
  intro s hsmem
  rw [generateCardAsync_sessions] at hsmem
  simp only [List.map_append, List.mem_append, List.map_cons, List.map_nil,
    List.mem_map, List.mem_singleton] at hsmem
  rcases hsmem with ⟨t, ht, rfl⟩ | hnew
  · have hne : (t.id == nsid) = false := by simpa using hfresh t ht
    simpa [hne] using hinv t ht
  · rw [hnew]
    have hid : ((newPendingSession userId req today nsid).id == nsid) = true := by
      simp [newPendingSession]
    rw [if_pos hid]
    exact pipelineFinal_terminal renv.pipeline req now (newPendingSession userId req today nsid)

/-- Witness for C1: the Scenario-D run on an empty store satisfies the
hypotheses, and the invariant holds for every session of the resulting
store. -/
theorem c1_completed_at_iff_terminal_witness :
    (∀ s ∈ exampleStore.sessions, completedAtIffTerminal s = true) ∧
    (∀ s ∈ exampleStore.sessions, s.id ≠ 10) ∧
    (∀ s ∈ exampleRunStore.sessions, completedAtIffTerminal s = true) :=
  ⟨by decide, by decide,
    c1_completed_at_iff_terminal exampleRoute exampleStore 1 exampleReq 0 5 10 20
      exampleRunStore (newPendingSession 1 exampleReq 0 10)
      (by decide) (by decide) rfl⟩

/-- Pipeline oracle where the text-generation call throws `"boom"`. -/
def exampleTextFailPipeline : PipelineEnv :=
  { examplePipelineOk with textResult := Except.error "boom" }

def exampleTextFailRoute : RouteEnv :=
  { exampleRoute with pipeline := exampleTextFailPipeline }

/-- The store after a run whose text-generation call throws. -/
def exampleFailRunStore : Store :=
  match generateRun exampleTextFailRoute exampleStore 1 exampleReq 0 5 10 20 with
  | GenerateResult.ok st _ => st
  | _ => exampleStore

theorem generateCardContent_error_of_text (env : PipelineEnv) (prompt : String)
    (cardType : CardType) (params : GenerationParams) (e : String)
    (h : env.textResult = Except.error e) :
    generateCardContent env prompt cardType params = Except.error e := by
  unfold generateCardContent
  rw [h]

/-- Counterexample for C2: after a run in which the pipeline fails with an
unhandled text-generation error, the session is `failed` but its
`retry_count` is still `0` — the catch block never increments it (the claim
would require it to be incremented on each of up to 3 attempts). -/
theorem c2_retry_counterexample :
    exampleFailRunStore.sessions =
      [{ id := 10, user_id := 1, input_prompt := "elephant",
         card_type := CardType.single_word, status := SessionStatus.failed,
         error_message := some "boom", retry_count := 0, ai_costs := none,
         created_at := 0, completed_at := some 5 }] := by
  decide

/-- C2 as amended: an unhandled pipeline exception transitions the session
to `failed` with the thrown message and `completed_at` set, but
`retry_count` is never incremented — the created session ends every run
with `retry_count = 0`, no automatic pipeline re-entry exists, and
`retry_count` never exceeds 3 across a run. -/
theorem c2_retry_count_never_incremented
    (renv : RouteEnv) (store : Store) (userId : Nat) (req : GenerateRequest)
    (today now nsid ncid : Nat) (store1 : Store) (sess : Session)
    (hfresh : ∀ s ∈ store.sessions, s.id ≠ nsid)
    (hbound : ∀ s ∈ store.sessions, s.retry_count ≤ 3)
    (hrun : generateRun renv store userId req today now nsid ncid =
      GenerateResult.ok store1 sess) :
    (∀ s ∈ store1.sessions, s.retry_count ≤ 3) ∧
    (∀ s ∈ store1.sessions, s.id = nsid → s.retry_count = 0) ∧
    (∀ e, renv.pipeline.textResult = Except.error e →
      ∀ s ∈ store1.sessions, s.id = nsid →
        s.status = SessionStatus.failed ∧ s.error_message = some e ∧
        s.completed_at = some now) := by
  obtain ⟨hs, hst⟩ :=
    generateRun_ok_inv renv store userId req today now nsid ncid store1 sess hrun
  subst hst
  have hmem : ∀ s ∈ (generateCardAsync renv.pipeline
      { store with sessions := store.sessions ++ [newPendingSession userId req today nsid] }
      nsid req userId ncid now).sessions,
      (∃ t ∈ store.sessions, s = t) ∨
      s = pipelineFinal renv.pipeline req now (newPendingSession userId req today nsid) := by
    intro s hsmem
    rw [generateCardAsync_sessions] at hsmem
    simp only [List.map_append, List.mem_append, List.map_cons, List.map_nil,
      List.mem_map, List.mem_singleton] at hsmem
    rcases hsmem with ⟨t, ht, rfl⟩ | hnew
    · have hne : (t.id == nsid) = false := by simpa using hfresh t ht
      exact Or.inl ⟨t, ht, by rw [hne]; rfl⟩
    · refine Or.inr ?_
      rw [hnew]
      have hid : ((newPendingSession userId req today nsid).id == nsid) = true := by
        simp [newPendingSession]
      rw [if_pos hid]
  refine ⟨?_, ?_, ?_⟩
  · intro s hsmem
    rcases hmem s hsmem with ⟨t, ht, rfl⟩ | rfl
    · exact hbound _ ht
    · rw [pipelineFinal_retry_count]
      exact Nat.zero_le 3
  · intro s hsmem hid
    rcases hmem s hsmem with ⟨t, ht, rfl⟩ | rfl
    · exact absurd hid (hfresh _ ht)
    · rw [pipelineFinal_retry_count]
      rfl
  · intro e he s hsmem hid
    rcases hmem s hsmem with ⟨t, ht, rfl⟩ | rfl
    · exact absurd hid (hfresh _ ht)
    · rw [pipelineFinal,
        generateCardContent_error_of_text renv.pipeline req.input_prompt req.card_type
          req.generation_params e he]
      exact ⟨rfl, rfl, rfl⟩

theorem generateSceneImages_length (f : Nat → Except String (Option String)) :
    ∀ (scenes : List SceneInput) (k : Nat),
      (generateSceneImages f scenes k).length = scenes.length := by
  intro scenes
  induction scenes with
  | nil => intro k; rfl
  | cons s rest ih => intro k; simp [generateSceneImages, ih]

theorem sceneImageResult_empty_iff (r : Except String (Option String)) (s : SceneInput) :
    ((sceneImageResult r s).image_url = "") ↔ callFailed r = true := by
  unfold sceneImageResult callFailed
  cases r with
  | error e => simp
  | ok o =>
    cases o with
    | none => simp
    | some url =>
      cases h : (url == "") with
      | true =>
        have h2 : url = "" := by simpa using h
        simp [h2]
      | false =>
        have h2 : ¬ url = "" := by simpa using h
        simp [h2]

theorem generateSceneImages_get? (f : Nat → Except String (Option String)) :
    ∀ (scenes : List SceneInput) (k i : Nat),
      (generateSceneImages f scenes k).get? i =
        (scenes.get? i).map (fun s => sceneImageResult (f (k + i)) s) := by
  intro scenes
  induction scenes with
  | nil => intro k i; rfl
  | cons s rest ih =>
    intro k i
    cases i with
    | zero => rfl
    | succ j =>
      simp only [generateSceneImages, List.get?_cons_succ, ih rest.length.succ]
      rw [ih (k + 1) j]
      have : k + 1 + j = k + (j + 1) := by omega
      rw [this]

theorem generateCardContent_ok (env : PipelineEnv) (prompt : String)
    (cardType : CardType) (params : GenerationParams) (tc : TextContent)
    (htext : env.textResult = Except.ok tc)
    (hmod : moderateContent env.moderation
      (String.intercalate " " (tc.scenes.map SceneInput.description)) = Except.ok ()) :
    generateCardContent env prompt cardType params = Except.ok
      { title := tc.title
        content := { primary_word := tc.primary_word
                     scenes := generateSceneImages env.imageCall tc.scenes 0
                     category_words := tc.category_words
                     layout := defaultLayout }
        costs := calculateCosts (tc.usage_total_tokens.getD 0)
          (generateSceneImages env.imageCall tc.scenes 0).length } := by
  simp only [generateCardContent, htext, hmod]

theorem generateCardAsync_ok_cards (env : PipelineEnv) (store : Store) (sid : Nat)
    (req : GenerateRequest) (userId ncid now : Nat) (cc : GenOutput)
    (hg : generateCardContent env req.input_prompt req.card_type req.generation_params =
      Except.ok cc)
    (hci : env.cardInsertError = none) :
    (generateCardAsync env store sid req userId ncid now).cards =
      store.cards ++ [producedCard cc req userId sid ncid] := by
  simp only [generateCardAsync, hg, hci, updateSession, apply_ite Store.cards, ite_self]

theorem generateCardAsync_ok_card_scenes (env : PipelineEnv) (store : Store) (sid : Nat)
    (req : GenerateRequest) (userId ncid now : Nat) (cc : GenOutput)
    (hg : generateCardContent env req.input_prompt req.card_type req.generation_params =
      Except.ok cc)
    (hci : env.cardInsertError = none)
    (hsi : env.scenesInsertError = false)
    (hne : 0 < cc.content.scenes.length) :
    (generateCardAsync env store sid req userId ncid now).card_scenes =
      store.card_scenes ++ scenesRows ncid cc.content.scenes 0 := by
  have hcond : (0 < cc.content.scenes.length && !env.scenesInsertError) = true := by
    simp [hsi, hne]
  simp only [generateCardAsync, hg, hci, hcond, updateSession, if_true]

theorem generateCardAsync_err_cards (env : PipelineEnv) (store : Store) (sid : Nat)
    (req : GenerateRequest) (userId ncid now : Nat) (e : String)
    (hg : generateCardContent env req.input_prompt req.card_type req.generation_params =
      Except.error e) :
    (generateCardAsync env store sid req userId ncid now).cards = store.cards ∧
    (generateCardAsync env store sid req userId ncid now).card_scenes =
      store.card_scenes := by
  simp [generateCardAsync, hg, failSession, updateSession]

/-- C3: when text generation and moderation succeed (and the card insert
works), the session reaches `completed` for **every** image-call oracle —
scene image failures never fail the session; every scene of the text step
is processed (the produced list has the same length), each failed scene is
persisted in `card_scenes` with an empty `image_url`, and each successful
scene carries its url. -/
theorem c3_scene_image_failure_absorbed
    (renv : RouteEnv) (store : Store) (userId : Nat) (req : GenerateRequest)
    (today now nsid ncid : Nat) (store1 : Store) (sess : Session) (tc : TextContent)
    (htext : renv.pipeline.textResult = Except.ok tc)
    (hmod : moderateContent renv.pipeline.moderation
      (String.intercalate " " (tc.scenes.map SceneInput.description)) = Except.ok ())
    (hci : renv.pipeline.cardInsertError = none)
    (hsi : renv.pipeline.scenesInsertError = false)
    (hne : 0 < tc.scenes.length)
    (hfresh : ∀ s ∈ store.sessions, s.id ≠ nsid)
    (hrun : generateRun renv store userId req today now nsid ncid =
      GenerateResult.ok store1 sess) :
    (∀ s ∈ store1.sessions, s.id = nsid → s.status = SessionStatus.completed) ∧
    (∃ cc, generateCardContent renv.pipeline req.input_prompt req.card_type
        req.generation_params = Except.ok cc ∧
      cc.content.scenes = generateSceneImages renv.pipeline.imageCall tc.scenes 0 ∧
      store1.cards = store.cards ++ [producedCard cc req userId nsid ncid] ∧
      store1.card_scenes = store.card_scenes ++ scenesRows ncid cc.content.scenes 0) ∧
    (generateSceneImages renv.pipeline.imageCall tc.scenes 0).length = tc.scenes.length ∧
    (∀ i sc, (generateSceneImages renv.pipeline.imageCall tc.scenes 0).get? i = some sc →
      (sc.image_url = "" ↔ callFailed (renv.pipeline.imageCall i) = true)) := by
  obtain ⟨hs, hst⟩ :=
    generateRun_ok_inv renv store userId req today now nsid ncid store1 sess hrun
  subst hst
  have hg := generateCardContent_ok renv.pipeline req.input_prompt req.card_type
    req.generation_params tc htext hmod
  refine ⟨?_, ⟨_, hg, rfl, ?_, ?_⟩, ?_, ?_⟩
  · intro s hsmem hid
    rw [generateCardAsync_sessions] at hsmem
    simp only [List.map_append, List.mem_append, List.map_cons, List.map_nil,
      List.mem_map, List.mem_singleton] at hsmem
    rcases hsmem with ⟨t, ht, rfl⟩ | hnew
    · have hne2 : (t.id == nsid) = false := by simpa using hfresh t ht
      rw [hne2] at hid ⊢
      exact absurd hid (hfresh t ht)
    · rw [hnew]
      have hid2 : ((newPendingSession userId req today nsid).id == nsid) = true := by
        simp [newPendingSession]
      rw [if_pos hid2]
      simp only [pipelineFinal, hg, hci]
  · rw [generateCardAsync_ok_cards renv.pipeline _ nsid req userId ncid now _ hg hci]
  · rw [generateCardAsync_ok_card_scenes renv.pipeline _ nsid req userId ncid now _ hg hci hsi]
    have : (generateSceneImages renv.pipeline.imageCall tc.scenes 0).length =
        tc.scenes.length := generateSceneImages_length renv.pipeline.imageCall tc.scenes 0
    simpa [this] using hne
  · exact generateSceneImages_length renv.pipeline.imageCall tc.scenes 0
  · intro i sc hsc
    rw [generateSceneImages_get? renv.pipeline.imageCall tc.scenes 0 i] at hsc
    cases hti : tc.scenes.get? i with
    | none => rw [hti] at hsc; exact absurd hsc (by simp)
    | some s0 =>
      rw [hti] at hsc
      have hsc2 : sceneImageResult (renv.pipeline.imageCall (0 + i)) s0 = sc := by
        simpa using hsc
      rw [← hsc2, Nat.zero_add]
      exact sceneImageResult_empty_iff (renv.pipeline.imageCall i) s0

/-- Witness for C3 at the Scenario-D run (four scenes, the fourth image
call throws). -/
theorem c3_scene_image_failure_absorbed_witness :
    (examplePipelineOk.textResult = Except.ok exampleText) ∧
    (0 < exampleText.scenes.length) ∧
    ((∀ s ∈ exampleRunStore.sessions, s.id = 10 → s.status = SessionStatus.completed) ∧
     (generateSceneImages examplePipelineOk.imageCall exampleText.scenes 0).length =
        exampleText.scenes.length ∧
     (∀ i sc,
        (generateSceneImages examplePipelineOk.imageCall exampleText.scenes 0).get? i =
          some sc →
        (sc.image_url = "" ↔ callFailed (examplePipelineOk.imageCall i) = true))) := by
  have h := c3_scene_image_failure_absorbed exampleRoute exampleStore 1 exampleReq
    0 5 10 20 exampleRunStore (newPendingSession 1 exampleReq 0 10) exampleText
    rfl rfl rfl rfl (by decide) (by decide) rfl
  exact ⟨rfl, by decide, h.1, h.2.2.1, h.2.2.2⟩

theorem generateCardContent_flagged (env : PipelineEnv) (prompt : String)
    (cardType : CardType) (params : GenerationParams) (tc : TextContent)
    (results : List ModerationOutput) (m : ModerationOutput)
    (htext : env.textResult = Except.ok tc)
    (hmod : env.moderation = Except.ok results)
    (hhead : results.head? = some m)
    (hflag : m.flagged = true) :
    generateCardContent env prompt cardType params =
      Except.error ("Content policy violation: " ++
        String.intercalate ", "
          ((m.categories.filter (fun p => p.2)).map (fun p => p.1))) := by
  have hm : moderateContent env.moderation
      (String.intercalate " " (tc.scenes.map SceneInput.description)) =
      Except.error ("Content policy violation: " ++
        String.intercalate ", "
          ((m.categories.filter (fun p => p.2)).map (fun p => p.1))) := by
    simp [moderateContent, hmod, hhead, hflag]
  simp only [generateCardContent, htext, hm]

theorem generateCardAsync_err (env : PipelineEnv) (store : Store) (sid : Nat)
    (req : GenerateRequest) (userId ncid now : Nat) (e : String)
    (hg : generateCardContent env req.input_prompt req.card_type req.generation_params =
      Except.error e) :
    generateCardAsync env store sid req userId ncid now =
      failSession (updateSession store sid
        (fun s => { s with status := SessionStatus.processing })) sid e now := by
  simp only [generateCardAsync, hg]

def exampleFlaggedMod : ModerationOutput :=
  { flagged := true,
    categories := [("violence", true), ("hate", true), ("sexual", false)] }

def exampleFlaggedPipeline : PipelineEnv :=
  { examplePipelineOk with moderation := Except.ok [exampleFlaggedMod] }

def exampleFlaggedRoute : RouteEnv :=
  { exampleRoute with pipeline := exampleFlaggedPipeline }

/-- The store after a run whose moderation check flags the content. -/
def exampleFlaggedRunStore : Store :=
  match generateRun exampleFlaggedRoute exampleStore 1 exampleReq 0 5 10 20 with
  | GenerateResult.ok st _ => st
  | _ => exampleStore

/-- C4: when moderation flags the concatenated scene descriptions, the
session ends `failed` with the message
`Content policy violation: <flagged categories>`, no flash card and no
scene rows are persisted, and no image generation is performed: the run
result does not depend on the image-call oracle at all. -/
theorem c4_moderation_flagged_terminal
    (renv : RouteEnv) (store : Store) (userId : Nat) (req : GenerateRequest)
    (today now nsid ncid : Nat) (store1 : Store) (sess : Session)
    (tc : TextContent) (results : List ModerationOutput) (m : ModerationOutput)
    (htext : renv.pipeline.textResult = Except.ok tc)
    (hmod : renv.pipeline.moderation = Except.ok results)
    (hhead : results.head? = some m)
    (hflag : m.flagged = true)
    (hfresh : ∀ s ∈ store.sessions, s.id ≠ nsid)
    (hrun : generateRun renv store userId req today now nsid ncid =
      GenerateResult.ok store1 sess) :
    (∀ s ∈ store1.sessions, s.id = nsid →
      s.status = SessionStatus.failed ∧
      s.error_message = some ("Content policy violation: " ++
        String.intercalate ", "
          ((m.categories.filter (fun p => p.2)).map (fun p => p.1))) ∧
      s.completed_at = some now) ∧
    store1.cards = store.cards ∧
    store1.card_scenes = store.card_scenes ∧
    (∀ f, generateRun
        { renv with pipeline := { renv.pipeline with imageCall := f } }
        store userId req today now nsid ncid =
      generateRun renv store userId req today now nsid ncid) := by
  obtain ⟨hs, hst⟩ :=
    generateRun_ok_inv renv store userId req today now nsid ncid store1 sess hrun
  have hgc := generateCardContent_flagged renv.pipeline req.input_prompt req.card_type
    req.generation_params tc results m htext hmod hhead hflag
  subst hst
  refine ⟨?_, ?_, ?_, ?_⟩
  · intro s hsmem hid
    rw [generateCardAsync_sessions] at hsmem
    simp only [List.map_append, List.mem_append, List.map_cons, List.map_nil,
      List.mem_map, List.mem_singleton] at hsmem
    rcases hsmem with ⟨t, ht, rfl⟩ | hnew
    · have hne2 : (t.id == nsid) = false := by simpa using hfresh t ht
      rw [hne2] at hid ⊢
      exact absurd hid (hfresh t ht)
    · rw [hnew]
      have hid2 : ((newPendingSession userId req today nsid).id == nsid) = true := by
        simp [newPendingSession]
      rw [if_pos hid2]
      simp [pipelineFinal, hgc]
  · exact (generateCardAsync_err_cards renv.pipeline _ nsid req userId ncid now _ hgc).1
  · exact (generateCardAsync_err_cards renv.pipeline _ nsid req userId ncid now _ hgc).2
  · intro f
    have hgc2 := generateCardContent_flagged
      { renv.pipeline with imageCall := f } req.input_prompt req.card_type
      req.generation_params tc results m htext hmod hhead hflag
    have hpp : postGenerate { renv with pipeline := { renv.pipeline with imageCall := f } }
        store userId req today nsid = postGenerate renv store userId req today nsid := rfl
    unfold generateRun
    rw [hpp]
    cases hpost : postGenerate renv store userId req today nsid with
    | quotaExceeded msg => rfl
    | sessionCreateFailed => rfl
    | ok st0 s0 =>
      exact congrArg (fun st => GenerateResult.ok st s0)
        ((generateCardAsync_err _ st0 s0.id req userId ncid now _ hgc2).trans
          (generateCardAsync_err renv.pipeline st0 s0.id req userId ncid now _ hgc).symm)

/-- Witness for C4 at the concrete flagged run. -/
theorem c4_moderation_flagged_terminal_witness :
    (exampleFlaggedPipeline.moderation = Except.ok [exampleFlaggedMod]) ∧
    (exampleFlaggedMod.flagged = true) ∧
    ((∀ s ∈ exampleFlaggedRunStore.sessions, s.id = 10 →
       s.status = SessionStatus.failed ∧
       s.error_message = some "Content policy violation: violence, hate" ∧
       s.completed_at = some 5) ∧
     exampleFlaggedRunStore.cards = exampleStore.cards ∧
     exampleFlaggedRunStore.card_scenes = exampleStore.card_scenes) := by
  have h := c4_moderation_flagged_terminal exampleFlaggedRoute exampleStore 1 exampleReq
    0 5 10 20 exampleFlaggedRunStore (newPendingSession 1 exampleReq 0 10)
    exampleText [exampleFlaggedMod] exampleFlaggedMod
    rfl rfl rfl rfl (by decide) rfl
  refine ⟨rfl, rfl, ?_, h.2.1, h.2.2.1⟩
  intro s hsmem hid
  exact h.1 s hsmem hid

/-- The Scenario-D content-generation result: four scenes, the image call
for the fourth throws. -/
def exampleC5Result : Except String GenOutput :=
  generateCardContent examplePipelineOk "elephant" CardType.single_word exampleParams

def exampleC5Out : GenOutput :=
  match exampleC5Result with
  | Except.ok o => o
  | Except.error _ =>
    { title := ""
      content := { primary_word := "", scenes := [], category_words := none,
                   layout := defaultLayout }
      costs := calculateCosts 0 0 }

/-- Counterexample for C5: in a run where 3 of 4 scene image calls succeed,
the recorded `image_generations` is 4 (the total scene count), while only 3
scenes carry a non-empty `image_url` — scenes whose image generation failed
**do** contribute to the recorded image count, contrary to the claim. -/
theorem c5_image_count_counterexample :
    (exampleC5Result.toOption.map (fun o => o.costs.image_generations)) = some 4 ∧
    (exampleC5Result.toOption.map
      (fun o => (o.content.scenes.filter (fun s => !(s.image_url == ""))).length)) =
      some 3 ∧
    (4 : Nat) ≠ 3 := by
  refine ⟨by decide, by decide, by decide⟩

/-- C5 as amended: on a successful pipeline the attached costs are
`calculateCosts` of the text token usage and of the **total** number of
scenes processed by the image step (`scenes.length`), counting also scenes
whose image generation failed; in particular `image_generations` equals the
scene count of the text step, not the number of images actually
generated. -/
theorem c5_costs_count_all_scenes
    (env : PipelineEnv) (prompt : String) (cardType : CardType)
    (params : GenerationParams) (tc : TextContent) (out : GenOutput)
    (htext : env.textResult = Except.ok tc)
    (hmod : moderateContent env.moderation
      (String.intercalate " " (tc.scenes.map SceneInput.description)) = Except.ok ())
    (hout : generateCardContent env prompt cardType params = Except.ok out) :
    out.costs = calculateCosts (tc.usage_total_tokens.getD 0) tc.scenes.length ∧
    out.costs.image_generations = tc.scenes.length ∧
    out.costs.text_tokens = tc.usage_total_tokens.getD 0 := by
  have h := generateCardContent_ok env prompt cardType params tc htext hmod
  have h3 := Except.ok.inj (hout.symm.trans h)
  subst h3
  refine ⟨?_, ?_, ?_⟩
  · show calculateCosts (tc.usage_total_tokens.getD 0)
      (generateSceneImages env.imageCall tc.scenes 0).length = _
    rw [generateSceneImages_length]
  · show (calculateCosts (tc.usage_total_tokens.getD 0)
      (generateSceneImages env.imageCall tc.scenes 0).length).image_generations = _
    rw [show ∀ a b, (calculateCosts a b).image_generations = b from fun a b => rfl]
    rw [generateSceneImages_length]
  · rfl

/-- Witness for C5's amended theorem at the Scenario-D input. -/
theorem c5_costs_count_all_scenes_witness :
    (examplePipelineOk.textResult = Except.ok exampleText) ∧
    (generateCardContent examplePipelineOk "elephant" CardType.single_word exampleParams =
      Except.ok exampleC5Out) ∧
    (exampleC5Out.costs.image_generations = exampleText.scenes.length ∧
     exampleC5Out.costs.text_tokens = 1000) :=
  ⟨rfl, rfl,
    (c5_costs_count_all_scenes examplePipelineOk "elephant" CardType.single_word
      exampleParams exampleText exampleC5Out rfl rfl rfl).2.1,
    (c5_costs_count_all_scenes examplePipelineOk "elephant" CardType.single_word
      exampleParams exampleText exampleC5Out rfl rfl rfl).2.2⟩

/-- C6: for a user whose tier maps to daily limit `L` in the quota table,
a call made with exactly `L` sessions created today is rejected with
`QUOTA_EXCEEDED` (and the result carries no store: nothing is persisted),
while a call with at most `L - 1` sessions today passes the gate and
persists a new `pending` session. -/
theorem c6_quota_boundary
    (renv : RouteEnv) (store : Store) (userId : Nat) (req : GenerateRequest)
    (today nsid : Nat) (tier : String) (L : Nat)
    (hu : renv.userLookupFails = false)
    (hc : renv.countLookupFails = false)
    (hi : renv.sessionInsertError = false)
    (htier : lookupTier store userId = some tier)
    (hL : lookupLimit tier = some L) :
    (countSessionsToday store userId today = L →
      postGenerate renv store userId req today nsid =
        GenerateResult.quotaExceeded ("Daily limit of " ++ toString L ++
          " cards reached. Upgrade to generate more cards.")) ∧
    (countSessionsToday store userId today + 1 ≤ L →
      postGenerate renv store userId req today nsid =
        GenerateResult.ok
          { store with
            sessions := store.sessions ++ [newPendingSession userId req today nsid] }
          (newPendingSession userId req today nsid)) := by
  have hne : (tier == "") = false := by
    cases h : (tier == "") with
    | true =>
      have h2 : tier = "" := by simpa using h
      rw [h2] at hL
      have h3 : lookupLimit "" = none := by decide
      rw [h3] at hL
      exact absurd hL (by simp)
    | false => rfl
  constructor
  · intro hcount
    simp [postGenerate, routeQuotaCheck, checkUserQuota, hu, hc, hi, htier, hne,
      hL, hcount, jsGeNat]
  · intro hcount
    have hlt : ¬ L ≤ countSessionsToday store userId today := by omega
    simp [postGenerate, routeQuotaCheck, checkUserQuota, hu, hc, hi, htier, hne,
      hL, jsGeNat, hlt]

def exampleQuotaUser : UserRow := { id := 1, subscription_tier := "free" }

/-- A store in which user 1 (free tier) has already created five sessions
today (day 0). -/
def exampleStore5 : Store :=
  { users := [exampleQuotaUser],
    sessions := [newPendingSession 1 exampleReq 0 100, newPendingSession 1 exampleReq 0 101,
                 newPendingSession 1 exampleReq 0 102, newPendingSession 1 exampleReq 0 103,
                 newPendingSession 1 exampleReq 0 104],
    cards := [], card_scenes := [] }

/-- The same store with only four sessions today. -/
def exampleStore4 : Store :=
  { users := [exampleQuotaUser],
    sessions := [newPendingSession 1 exampleReq 0 100, newPendingSession 1 exampleReq 0 101,
                 newPendingSession 1 exampleReq 0 102, newPendingSession 1 exampleReq 0 103],
    cards := [], card_scenes := [] }

/-- Witness for C6 at the free-tier boundary: five sessions today are
rejected, four are admitted. -/
theorem c6_quota_boundary_witness :
    (countSessionsToday exampleStore5 1 0 = 5) ∧
    postGenerate exampleRoute exampleStore5 1 exampleReq 0 10 =
      GenerateResult.quotaExceeded
        "Daily limit of 5 cards reached. Upgrade to generate more cards." ∧
    (countSessionsToday exampleStore4 1 0 + 1 ≤ 5) ∧
    postGenerate exampleRoute exampleStore4 1 exampleReq 0 10 =
      GenerateResult.ok
        { exampleStore4 with
          sessions := exampleStore4.sessions ++ [newPendingSession 1 exampleReq 0 10] }
        (newPendingSession 1 exampleReq 0 10) :=
  ⟨by decide,
    (c6_quota_boundary exampleRoute exampleStore5 1 exampleReq 0 10 "free" 5
      rfl rfl rfl rfl rfl).1 (by decide),
    by decide,
    (c6_quota_boundary exampleRoute exampleStore4 1 exampleReq 0 10 "free" 5
      rfl rfl rfl rfl rfl).2 (by decide)⟩

/-- C7: if the quota-count lookup itself rejects, `checkUserQuota` returns
`allowed = true` — whatever the tier read did — and the generate route
still inserts a new `pending` session: the gate fails open. -/
theorem c7_quota_fail_open
    (renv : RouteEnv) (store : Store) (userId : Nat) (req : GenerateRequest)
    (today nsid : Nat)
    (hcfail : renv.countLookupFails = true)
    (hi : renv.sessionInsertError = false) :
    (∀ tr : Except Unit (Option String),
      (checkUserQuota tr (Except.error ())).allowed = true) ∧
    postGenerate renv store userId req today nsid =
      GenerateResult.ok
        { store with
          sessions := store.sessions ++ [newPendingSession userId req today nsid] }
        (newPendingSession userId req today nsid) := by
  constructor
  · intro tr
    cases tr with
    | error u => rfl
    | ok t => rfl
  · cases huser : renv.userLookupFails with
    | true => simp [postGenerate, routeQuotaCheck, checkUserQuota, hcfail, hi, huser]
    | false => simp [postGenerate, routeQuotaCheck, checkUserQuota, hcfail, hi, huser]

/-- Route oracle whose quota-count lookup rejects. -/
def exampleCountFailRoute : RouteEnv := { exampleRoute with countLookupFails := true }

/-- Witness for C7: with the count lookup failing over the five-session
store (which would otherwise be over quota), the session is still
created. -/
theorem c7_quota_fail_open_witness :
    (exampleCountFailRoute.countLookupFails = true) ∧
    ((∀ tr : Except Unit (Option String),
       (checkUserQuota tr (Except.error ())).allowed = true) ∧
     postGenerate exampleCountFailRoute exampleStore5 1 exampleReq 0 10 =
       GenerateResult.ok
         { exampleStore5 with
           sessions := exampleStore5.sessions ++ [newPendingSession 1 exampleReq 0 10] }
         (newPendingSession 1 exampleReq 0 10)) :=
  ⟨rfl, c7_quota_fail_open exampleCountFailRoute exampleStore5 1 exampleReq 0 10 rfl rfl⟩

/-- C10: a subscription tier that is not a key of the quota table — such as
the `enterprise` value of the user type — yields `undefined` from the limit
lookup; `count >= undefined` is false for every count, so the gate allows
every call regardless of how many sessions the user created today, and the
route persists a new `pending` session. -/
theorem c10_unknown_tier_unlimited
    (renv : RouteEnv) (store : Store) (userId : Nat) (req : GenerateRequest)
    (today nsid : Nat)
    (hu : renv.userLookupFails = false)
    (hc : renv.countLookupFails = false)
    (hi : renv.sessionInsertError = false)
    (htier : lookupTier store userId = some "enterprise") :
    (∀ cnt : Nat,
      checkUserQuota (Except.ok (some "enterprise")) (Except.ok (some cnt)) =
        { allowed := true, message := none }) ∧
    lookupLimit "enterprise" = none ∧
    postGenerate renv store userId req today nsid =
      GenerateResult.ok
        { store with
          sessions := store.sessions ++ [newPendingSession userId req today nsid] }
        (newPendingSession userId req today nsid) := by
  refine ⟨fun cnt => rfl, by decide, ?_⟩
  simp [postGenerate, routeQuotaCheck, checkUserQuota, hu, hc, hi, htier, jsGeNat,
    lookupLimit, quotaLimits]

/-- A store in which user 1 has tier `enterprise` and six sessions today —
more than any configured limit would allow. -/
def exampleEnterpriseStore : Store :=
  { users := [{ id := 1, subscription_tier := "enterprise" }],
    sessions := [newPendingSession 1 exampleReq 0 100, newPendingSession 1 exampleReq 0 101,
                 newPendingSession 1 exampleReq 0 102, newPendingSession 1 exampleReq 0 103,
                 newPendingSession 1 exampleReq 0 104, newPendingSession 1 exampleReq 0 105],
    cards := [], card_scenes := [] }

/-- Witness for C10: the enterprise user with six sessions today is still
admitted. -/
theorem c10_unknown_tier_unlimited_witness :
    (lookupTier exampleEnterpriseStore 1 = some "enterprise") ∧
    (countSessionsToday exampleEnterpriseStore 1 0 = 6) ∧
    ((∀ cnt : Nat,
       checkUserQuota (Except.ok (some "enterprise")) (Except.ok (some cnt)) =
         { allowed := true, message := none }) ∧
     lookupLimit "enterprise" = none ∧
     postGenerate exampleRoute exampleEnterpriseStore 1 exampleReq 0 10 =
       GenerateResult.ok
         { exampleEnterpriseStore with
           sessions := exampleEnterpriseStore.sessions ++
             [newPendingSession 1 exampleReq 0 10] }
         (newPendingSession 1 exampleReq 0 10)) :=
  ⟨by decide, by decide,
    c10_unknown_tier_unlimited exampleRoute exampleEnterpriseStore 1 exampleReq 0 10
      rfl rfl rfl rfl⟩

theorem find?_map_preserving {α : Type} (p : α → Bool) (g : α → α)
    (hpg : ∀ a, p (g a) = p a) :
    ∀ l : List α, (l.map g).find? p = (l.find? p).map g := by
  intro l
  induction l with
  | nil => rfl
  | cons a t ih =>
    cases h : p a with
    | true => simp [List.find?, hpg a, h]
    | false => simp [List.find?, hpg a, h, ih]

theorem map_idem {α : Type} (g : α → α) (hg : ∀ a, g (g a) = g a) :
    ∀ l : List α, (l.map g).map g = l.map g := by
  intro l
  induction l with
  | nil => rfl
  | cons a t ih => simp [hg a, ih]

def exampleDownloadedCard : FlashCard :=
  { id := 1, user_id := 1, session_id := 1, title := "t",
    card_type := CardType.single_word,
    content := { primary_word := "w", scenes := [], category_words := none,
                 layout := defaultLayout },
    generation_params := exampleParams, status := CardStatus.downloaded }

def exampleCardStore : Store :=
  { users := [], sessions := [], cards := [exampleDownloadedCard], card_scenes := [] }

/-- Counterexample for C8: approving a card whose status is already
`Downloaded` does **not** return the card unchanged — `approveCard` updates
the row unconditionally, moving the card backward to `Approved`. -/
theorem c8_approve_moves_downloaded_backward :
    (exampleDownloadedCard.status = CardStatus.downloaded) ∧
    approveCard exampleCardStore 1 1 =
      Except.ok
        ({ exampleCardStore with
           cards := [{ exampleDownloadedCard with status := CardStatus.approved }] },
         { exampleDownloadedCard with status := CardStatus.approved }) ∧
    ¬ ({ exampleDownloadedCard with status := CardStatus.approved } =
      exampleDownloadedCard) := by
  refine ⟨rfl, rfl, by decide⟩

/-- C8 as amended: `approveCard` unconditionally sets the owned card's
status to `Approved` and is idempotent under repetition — the second call
returns exactly the same store and card, with no error — but an
already-`Downloaded` card is moved back to `Approved` rather than returned
unchanged. -/
theorem c8_approve_idempotent_unconditional
    (store : Store) (cardId userId : Nat) (store1 : Store) (c1 : FlashCard)
    (h : approveCard store cardId userId = Except.ok (store1, c1)) :
    c1.status = CardStatus.approved ∧
    approveCard store1 cardId userId = Except.ok (store1, c1) := by
  have hpg : ∀ d : FlashCard,
      ((fun c => c.id == cardId && c.user_id == userId)
        ((fun d => if d.id == cardId && d.user_id == userId then
          { d with status := CardStatus.approved } else d) d)) =
      ((fun c => c.id == cardId && c.user_id == userId) d) := by
    intro d
    cases hd : (d.id == cardId && d.user_id == userId) with
    | true => simp [hd]
    | false => simp [hd]
  have hgg : ∀ d : FlashCard,
      ((fun d => if d.id == cardId && d.user_id == userId then
          { d with status := CardStatus.approved } else d)
        ((fun d => if d.id == cardId && d.user_id == userId then
          { d with status := CardStatus.approved } else d) d)) =
      ((fun d => if d.id == cardId && d.user_id == userId then
          { d with status := CardStatus.approved } else d) d) := by
    intro d
    cases hd : (d.id == cardId && d.user_id == userId) with
    | true => simp [hd]
    | false => simp [hd]
  unfold approveCard at h
  cases hfind : store.cards.find? (fun c => c.id == cardId && c.user_id == userId) with
  | none => rw [hfind] at h; exact absurd h (by simp)
  | some c =>
    rw [hfind] at h
    rw [Except.ok.injEq, Prod.mk.injEq] at h
    obtain ⟨hst, hc⟩ := h
    subst hst hc
    constructor
    · rfl
    · unfold approveCard
      have hcards : ({ store with cards := store.cards.map (fun d =>
          if d.id == cardId && d.user_id == userId then
            { d with status := CardStatus.approved } else d) } : Store).cards =
          store.cards.map (fun d =>
            if d.id == cardId && d.user_id == userId then
              { d with status := CardStatus.approved } else d) := rfl
      rw [hcards, find?_map_preserving _ _ hpg store.cards, hfind]
      have hpc := List.find?_some hfind
      simp only [Option.map_some']
      rw [if_pos hpc]
      rw [map_idem _ hgg store.cards]

/-- A store holding a `Preview` card owned by user 1, for the C8 witness. -/
def examplePreviewCard : FlashCard :=
  { exampleDownloadedCard with id := 2, status := CardStatus.preview }

def examplePreviewStore : Store :=
  { users := [], sessions := [], cards := [examplePreviewCard], card_scenes := [] }

/-- The result of the first approve call on the preview card. -/
def exampleApprovedStore : Store :=
  match approveCard examplePreviewStore 2 1 with
  | Except.ok (st, _) => st
  | Except.error _ => examplePreviewStore

def exampleApprovedCard : FlashCard :=
  match approveCard examplePreviewStore 2 1 with
  | Except.ok (_, c) => c
  | Except.error _ => examplePreviewCard

/-- Witness for C8's amended theorem: approving the preview card twice
yields the same state both times. -/
theorem c8_approve_idempotent_unconditional_witness :
    (approveCard examplePreviewStore 2 1 =
      Except.ok (exampleApprovedStore, exampleApprovedCard)) ∧
    (exampleApprovedCard.status = CardStatus.approved ∧
     approveCard exampleApprovedStore 2 1 =
       Except.ok (exampleApprovedStore, exampleApprovedCard)) :=
  ⟨rfl,
    c8_approve_idempotent_unconditional examplePreviewStore 2 1
      exampleApprovedStore exampleApprovedCard rfl⟩

/-- C9: a `getSession` request for a session id whose rows all belong to a
different user returns `NOT_FOUND` — the route filters by both id and
owning user, so another user's session data is never returned (the
`notFound` result carries no session data at all). -/
theorem c9_get_session_isolation
    (store : Store) (sid uid : Nat)
    (hother : ∀ s ∈ store.sessions, s.id = sid → s.user_id ≠ uid) :
    getSessionRoute store sid uid = SessionLookup.notFound := by
  unfold getSessionRoute
  have hnone : store.sessions.find? (fun s => s.id == sid && s.user_id == uid) = none := by
    rw [List.find?_eq_none]
    intro s hs
    simp only [Bool.and_eq_true, beq_iff_eq, not_and]
    intro h1 h2
    exact hother s hs h1 h2
  rw [hnone]

/-- A store holding a completed session owned by user 2. -/
def exampleOtherUserStore : Store :=
  { users := [], sessions := [{ newPendingSession 2 exampleReq 0 7 with
      status := SessionStatus.completed, completed_at := some 5 }],
    cards := [], card_scenes := [] }

/-- Witness for C9: user 1 requesting user 2's session 7 gets NOT_FOUND. -/
theorem c9_get_session_isolation_witness :
    (∀ s ∈ exampleOtherUserStore.sessions, s.id = 7 → s.user_id ≠ 1) ∧
    getSessionRoute exampleOtherUserStore 7 1 = SessionLookup.notFound :=
  ⟨by decide, c9_get_session_isolation exampleOtherUserStore 7 1 (by decide)⟩

/-- Witness for C2's amended theorem at the concrete failing run. -/
theorem c2_retry_count_never_incremented_witness :
    (∀ s ∈ exampleStore.sessions, s.id ≠ 10) ∧
    (∀ s ∈ exampleStore.sessions, s.retry_count ≤ 3) ∧
    ((∀ s ∈ exampleFailRunStore.sessions, s.retry_count ≤ 3) ∧
     (∀ s ∈ exampleFailRunStore.sessions, s.id = 10 → s.retry_count = 0) ∧
     (∀ e, exampleTextFailRoute.pipeline.textResult = Except.error e →
       ∀ s ∈ exampleFailRunStore.sessions, s.id = 10 →
         s.status = SessionStatus.failed ∧ s.error_message = some e ∧
         s.completed_at = some 5)) :=
  ⟨by decide, by decide,
    c2_retry_count_never_incremented exampleTextFailRoute exampleStore 1 exampleReq
      0 5 10 20 exampleFailRunStore (newPendingSession 1 exampleReq 0 10)
      (by decide) (by decide) rfl⟩

end FlashCards
